import Mathlib

/-
Verification of the retrieval-augmented answer pipeline and the
human-feedback fine-tuning loop of the Across protocol Discord bot.

The Python sources are shallowly embedded as Lean definitions:
pure helpers become Lean functions, the MongoDB feedback collection
becomes an explicit list of documents threaded through a step
function over reaction events, remote services (OpenAI embedding,
completion, fine-tuning, sklearn cosine similarity, the json module)
become oracle parameters, and Python exceptions become Except values.
Machine floats from the similarity computation are modelled as
rationals, since the code only compares and sorts them.
-/

/- ===== Python string primitives ===== -/

/-- Python whitespace characters, as used by str.strip. -/
def pyIsSpace (c : Char) : Bool :=
  c = ' ' || c = '\t' || c = '\n' || c = '\r' || c = '\x0b' || c = '\x0c'

/-- Strip trailing Python whitespace from a character list. -/
def rstripChars (l : List Char) : List Char :=
  (l.reverse.dropWhile pyIsSpace).reverse

/-- Strip leading Python whitespace from a character list. -/
def lstripChars (l : List Char) : List Char :=
  l.dropWhile pyIsSpace

/-- Both-ends strip on character lists, right side first. -/
def stripChars (l : List Char) : List Char :=
  lstripChars (rstripChars l)

/-- Model of Python str.strip(). -/
def pyStrip (s : String) : String :=
  String.mk (stripChars s.toList)

/-- Model of Python file.readlines() on the whole content: split after
each newline, keeping the newline terminator on every complete line. -/
def readlinesChars : List Char → List Char → List (List Char)
  | [], acc => if acc.isEmpty then [] else [acc.reverse]
  | c :: rest, acc =>
    if c = '\n' then (acc.reverse ++ ['\n']) :: readlinesChars rest []
    else readlinesChars rest (c :: acc)

/-- Readlines on strings. -/
def pyReadlines (s : String) : List String :=
  (readlinesChars s.toList []).map String.mk

/-- Specification-side line decomposition: split on newline characters,
dropping the separators (the usual notion of the lines of a file). -/
def splitNewlineChars : List Char → List Char → List (List Char)
  | [], acc => [acc.reverse]
  | c :: rest, acc =>
    if c = '\n' then acc.reverse :: splitNewlineChars rest []
    else splitNewlineChars rest (c :: acc)

/-- Lines of a file content string, separators dropped. -/
def fileLines (s : String) : List String :=
  (splitNewlineChars s.toList []).map String.mk

/-- Model of Python sep.join(parts). -/
def pyJoin (sep : String) : List String → String
  | [] => ""
  | [x] => x
  | x :: y :: rest => x ++ sep ++ pyJoin sep (y :: rest)

/- ===== src/inference/inference.py ===== -/

namespace Inference

/-- State of the latest_model.txt file as seen by get_latest_fine_tuned_model:
missing (FileNotFoundError), unreadable (any other read error), or readable
with the given content. -/
inductive FileState where
  | missing
  | unreadable
  | readable (content : String)

/-- Embedding of get_latest_fine_tuned_model (inference.py lines 14-24):
read latest_model.txt, keep the stripped non-blank lines, return the last
one; on FileNotFoundError, any other error, or no non-blank line, return
the default model id. -/
def get_latest_fine_tuned_model (fs : FileState) : String :=
  match fs with
  | .readable content =>
    let lines := ((pyReadlines content).map pyStrip).filter (fun l => !(l = ""))
    match lines.getLast? with
    | some m => m
    | none => "gpt-4o-2024-08-06"
  | .missing => "gpt-4o-2024-08-06"
  | .unreadable => "gpt-4o-2024-08-06"

/-- Specification-side description of the file contents: the last line of
the file that is non-blank after stripping, if any. -/
def lastNonBlankLine (s : String) : Option String :=
  (((fileLines s).map pyStrip).filter (fun l => !(l = ""))).getLast?

/-- One knowledge-base entry: url identifier, embedding vector, text content
(inference.py reads these from the merged embeddings JSON). -/
structure KnowledgeEntry where
  url : String
  embedding : List ℚ
  content : String
deriving DecidableEq

/-- Embedding of compute_similarity (inference.py lines 57-78). The cosine
similarity of the query embedding with an entry embedding is a float
computed by sklearn; it is modelled by the oracle parameter sim, since the
code only ever compares the resulting scores. The query argument is
accepted and unused, exactly as query_terms is computed and unused in the
source. -/
def compute_similarity (sim : KnowledgeEntry → ℚ) (embeddings_list : List KnowledgeEntry)
    (query : String) : List (String × ℚ × String) :=
  let _query_terms := query
  embeddings_list.map (fun entry => (entry.url, sim entry, entry.content))

/-- The fixed relevance floor 0.3 from inference.py line 87. -/
def similarity_floor : ℚ := mkRat 3 10

/-- Python sorted(key=similarity, reverse=True): a stable descending sort
by the similarity component. -/
def pySortDescBySim (l : List (String × ℚ × String)) : List (String × ℚ × String) :=
  l.mergeSort (fun a b => decide (b.2.1 ≤ a.2.1))

/-- Embedding of find_most_similar_documents (inference.py lines 80-96):
keep entries with similarity strictly above 0.3, sort descending by
similarity (stable), return the first top_n. -/
def find_most_similar_documents (sim : KnowledgeEntry → ℚ)
    (embeddings_list : List KnowledgeEntry) (query : String)
    (top_n : Nat := 3) : List (String × ℚ × String) :=
  let similarities := compute_similarity sim embeddings_list query
  let filtered_similarities :=
    similarities.filter (fun x => decide (similarity_floor < x.2.1))
  let sorted_similarities := pySortDescBySim filtered_similarities
  sorted_similarities.take top_n

/-- Embedding of the formatted_content block built for one document inside
generate_context_from_documents (inference.py lines 108-112). The
two-decimal float rendering of the similarity is modelled by the oracle
parameter fmt. -/
def formatted_content (fmt : ℚ → String) (doc : String × ℚ × String) : String :=
  "**Source**: [" ++ doc.1 ++ "](" ++ doc.1 ++ ")  \n" ++
  "**Similarity**: " ++ fmt doc.2.1 ++ "  \n" ++
  "**Content**: " ++ doc.2.2 ++ "\n"

/-- The loop of generate_context_from_documents: before each document the
accumulated length is tested against the budget and the loop breaks once
it is reached; otherwise the formatted block is appended whole. -/
def contextParts (fmt : ℚ → String) (max_length : Nat) :
    List (String × ℚ × String) → Nat → List String
  | [], _ => []
  | doc :: rest, current_length =>
    if max_length ≤ current_length then []
    else
      let f := formatted_content fmt doc
      f :: contextParts fmt max_length rest (current_length + f.length)

/-- Embedding of generate_context_from_documents (inference.py lines
98-116): join the collected parts with blank lines. -/
def generate_context_from_documents (fmt : ℚ → String)
    (similar_docs : List (String × ℚ × String)) (max_length : Nat := 2000) : String :=
  pyJoin "\n\n" (contextParts fmt max_length similar_docs 0)

/-- Number of documents admitted by the contextParts loop, starting from a
given accumulated length (specification-side helper). -/
def includedCount (fmt : ℚ → String) (max_length : Nat) :
    List (String × ℚ × String) → Nat → Nat
  | [], _ => 0
  | doc :: rest, current_length =>
    if max_length ≤ current_length then 0
    else includedCount fmt max_length rest
        (current_length + (formatted_content fmt doc).length) + 1

/-- Total character length of the formatted blocks of a document list. -/
def partsLenSum (fmt : ℚ → String) (docs : List (String × ℚ × String)) : Nat :=
  ((docs.map (formatted_content fmt)).map String.length).sum

/-- Boolean check that a character list starts with a given pattern. -/
def charsStartWith : List Char → List Char → Bool
  | _, [] => true
  | [], _ :: _ => false
  | c :: cs, p :: ps => c = p && charsStartWith cs ps

/-- The optional group after a leading code fence in the cleaning regex of
inference.py line 186: a literal json followed by greedy whitespace. -/
def afterFenceChars (r : List Char) : List Char :=
  if charsStartWith r ['j', 's', 'o', 'n'] then (r.drop 4).dropWhile pyIsSpace
  else r

/-- Removal of the leading-fence alternative of the regex on inference.py
line 186, anchored at the start: an optional json plus whitespace, a
literal triple backtick, then an optional json plus whitespace. -/
def stripLeadingFenceChars (s : List Char) : List Char :=
  if charsStartWith s ['j', 's', 'o', 'n'] then
    let rest := (s.drop 4).dropWhile pyIsSpace
    if charsStartWith rest ['\x60', '\x60', '\x60'] then afterFenceChars (rest.drop 3)
    else s
  else if charsStartWith s ['\x60', '\x60', '\x60'] then afterFenceChars (s.drop 3)
  else s

/-- Removal of the trailing-fence alternative of the regex on inference.py
line 186: a literal triple backtick at the end of the string. The input
has already been stripped, so the end anchor is the end of the string. -/
def stripTrailingFenceChars (s : List Char) : List Char :=
  if charsStartWith s.reverse ['\x60', '\x60', '\x60'] then (s.reverse.drop 3).reverse
  else s

/-- Embedding of the re.sub cleaning of the raw analysis response
(inference.py line 186): remove a leading code fence and a trailing code
fence. -/
def cleanAnalysisResponse (s : String) : String :=
  String.mk (stripTrailingFenceChars (stripLeadingFenceChars s.toList))

/-- Shape of a successfully parsed analysis JSON object: the topics and
tags keys may each be present or absent, and dict.get supplies the empty
list for an absent key. -/
structure AnalysisJson where
  topics : Option (List String)
  tags : Option (List String)

/-- Record passed to log_query_and_response (logger.py lines 12-28) and
inserted into the interaction log collection. The wall-clock timestamp is
omitted. -/
structure LogRecord where
  query : String
  response : String
  username : String
  topics : List String
  tags : List String
deriving DecidableEq

/-- Oracles for the remote calls and library calls performed by
generate_response_with_context: the latest-model file, the outcome of
load_embeddings (file with MongoDB fallback), the outcome of
generate_embedding_for_query, the sklearn cosine similarity, the float
formatter, the two chat-completion calls, and json.loads on the cleaned
analysis response (none models a json.JSONDecodeError). -/
structure InferenceEnv where
  latest_model_file : FileState
  embeddings_load : Except String (List KnowledgeEntry)
  query_embedding : Except String (List ℚ)
  sim : KnowledgeEntry → ℚ
  fmt : ℚ → String
  main_completion : Except String String
  analysis_completion : Except String String
  jsonLoads : String → Option AnalysisJson

/-- Embedding of generate_response_with_context (inference.py lines
127-211). The returned pair is the chat reply text together with the
interaction record passed to log_query_and_response, if any; a top-level
error models the uncaught exception escaping from
generate_embedding_for_query. -/
def generate_response_with_context (env : InferenceEnv)
    (user_query username : String) : Except String (String × Option LogRecord) :=
  let _model_name := get_latest_fine_tuned_model env.latest_model_file
  match env.embeddings_load with
  | .error _ => .ok ("Failed to retrieve embeddings from file and MongoDB.", none)
  | .ok embeddings_list =>
    match env.query_embedding with
    | .error e => .error ("Error generating embedding: " ++ e)
    | .ok _query_embedding =>
      let most_similar_docs :=
        find_most_similar_documents env.sim embeddings_list user_query 3
      let _context := generate_context_from_documents env.fmt most_similar_docs 2000
      match env.main_completion with
      | .error _ => .ok ("Sorry, there was an error generating the response.", none)
      | .ok main_content =>
        let response_text := pyStrip main_content
        match env.analysis_completion with
        | .error _ => .ok ("Sorry, there was an error generating the response.", none)
        | .ok analysis_content =>
          let raw_analysis_response := pyStrip analysis_content
          let cleaned_response := pyStrip (cleanAnalysisResponse raw_analysis_response)
          if cleaned_response = "" then
            .ok ("Sorry, there was an error processing the analysis.", none)
          else
            match env.jsonLoads cleaned_response with
            | some analysis_json =>
              .ok (response_text,
                some { query := user_query, response := response_text,
                       username := username,
                       topics := analysis_json.topics.getD [],
                       tags := analysis_json.tags.getD [] })
            | none => .ok (response_text, none)

end Inference

/- ===== src/cogs/reaction_listener.py ===== -/

namespace ReactionListener

/-- A user reference as stored in feedback documents: name and stringified
Discord id. -/
structure UserRef where
  name : String
  id : String
deriving DecidableEq

/-- The interaction sub-document of a feedback document. -/
structure InteractionRef where
  query : String
  response : String
  message_id : String
deriving DecidableEq

/-- The feedback sub-document: polarity (None before any reaction) and the
feedback timestamp. Time is modelled as a natural number. -/
structure FeedbackField where
  type : Option String
  timestamp : Nat
deriving DecidableEq

/-- One document of the MongoDB feedback collection, with the exact fields
written by store_feedback and log_feedback. reviewer is none for documents
inserted by store_feedback, which sets no reviewer key. replies models the
presence of a replies key, which neither writer ever sets. -/
structure FeedbackDoc where
  timestamp : Nat
  reviewer : Option UserRef
  original_user : UserRef
  interaction : InteractionRef
  feedback : FeedbackField
  replies : Option (List String)
deriving DecidableEq

/-- Fields extracted from a log attachment by the three regular-expression
markers (user line, query line, response section). -/
structure LogData where
  username : String
  user_id : String
  query : String
  response : String
deriving DecidableEq

/-- The reacting member as seen by the listener: display name, stringified
id, bot flag and administrator permission. -/
structure UserInfo where
  name : String
  id : String
  isBot : Bool
  isAdmin : Bool
deriving DecidableEq

/-- Events handled by the RLHFListener cog in its logging channel. An
attachment payload of none means the message carries no .txt attachment;
some none means the attachment is present but the marker extraction fails;
some (some d) means it parses to d. Reaction-removal events are delivered
by the gateway but the cog registers no handler for them. -/
inductive Event where
  | message (message_id : String) (attachment : Option (Option LogData)) (time : Nat)
  | reactionAdd (message_id : String) (emoji : String) (user : UserInfo)
      (attachment : Option (Option LogData)) (time : Nat)
  | reactionRemove (message_id : String) (emoji : String) (user : UserInfo) (time : Nat)

/-- Thumbs-up variants recognized by process_reaction (line 188). -/
def positive_emojis : List String := ["👍", "👍🏻", "👍🏼", "👍🏽", "👍🏾", "👍🏿"]

/-- Thumbs-down variants recognized by process_reaction (line 189). -/
def negative_emojis : List String := ["👎", "👎🏻", "👎🏼", "👎🏽", "👎🏾", "👎🏿"]

/-- Emoji allow-list of is_valid_reaction (line 242), in source order; the
medium-dark thumbs-down variant is absent from it in the source. -/
def valid_emojis : List String :=
  ["👍🏻", "👍", "👍🏼", "👍🏽", "👍🏾", "👍🏿", "👎", "👎🏻", "👎🏼", "👎🏽", "👎🏿"]

/-- Embedding of is_valid_reaction (lines 234-245): reject bot reviewers,
reviewers without administrator permission, and unrecognized emojis. -/
def is_valid_reaction (emoji : String) (u : UserInfo) : Bool :=
  !u.isBot && u.isAdmin && valid_emojis.contains emoji

/-- The feedback_type computed by process_reaction (line 191). -/
def feedback_type_of (emoji : String) : Option String :=
  if positive_emojis.contains emoji then some "positive"
  else if negative_emojis.contains emoji then some "negative"
  else none

/-- The MongoDB filter used by update_existing_feedback and for feedback
queries: interaction.message_id equals the message and reviewer.id equals
the reviewer. A document without a reviewer key cannot match. -/
def pairP (message_id reviewer_id : String) (d : FeedbackDoc) : Bool :=
  d.interaction.message_id == message_id &&
    (match d.reviewer with
     | some r => r.id == reviewer_id
     | none => false)

/-- Find-one followed by update-one on the found id: replace the first
document matching p by its image under f, reporting whether a match was
found. Models the find_one and update_one pair of update_existing_feedback
against a collection in natural order. -/
def updateExisting (p : FeedbackDoc → Bool) (f : FeedbackDoc → FeedbackDoc) :
    List FeedbackDoc → List FeedbackDoc × Bool
  | [] => ([], false)
  | d :: rest =>
    if p d then (f d :: rest, true)
    else
      let r := updateExisting p f rest
      (d :: r.1, r.2)

/-- The update applied in place by update_existing_feedback (lines
300-306): feedback.type becomes positive exactly when the emoji is the
plain thumbs-up, otherwise negative, and feedback.timestamp is refreshed. -/
def setFeedback (emoji : String) (t : Nat) (doc : FeedbackDoc) : FeedbackDoc :=
  { doc with feedback :=
      { type := some (if emoji == "👍" then "positive" else "negative"),
        timestamp := t } }

/-- The document inserted by log_feedback (lines 250-273) when no entry
exists for the pair. No replies key is written. -/
def logFeedbackDoc (message_id : String) (u : UserInfo) (feedback_type : Option String)
    (d : LogData) (t : Nat) : FeedbackDoc :=
  { timestamp := t,
    reviewer := some { name := u.name, id := u.id },
    original_user := { name := d.username, id := d.user_id },
    interaction := { query := d.query, response := d.response, message_id := message_id },
    feedback := { type := feedback_type, timestamp := t },
    replies := none }

/-- The document inserted by store_feedback (lines 130-147) for a new log
message: no reviewer key, no feedback polarity yet, no replies key. -/
def storeFeedbackDoc (message_id : String) (d : LogData) (t : Nat) : FeedbackDoc :=
  { timestamp := t,
    reviewer := none,
    original_user := { name := d.username, id := d.user_id },
    interaction := { query := d.query, response := d.response, message_id := message_id },
    feedback := { type := none, timestamp := t },
    replies := none }

/-- Embedding of log_feedback (lines 247-289): try the in-place update
keyed by (interaction.message_id, reviewer.id); insert a fresh document
only when no existing entry was found. -/
def log_feedback (store : List FeedbackDoc) (message_id : String) (emoji : String)
    (u : UserInfo) (feedback_type : Option String) (d : LogData) (t : Nat) :
    List FeedbackDoc :=
  let result := updateExisting (pairP message_id u.id) (setFeedback emoji t) store
  if result.2 then result.1
  else result.1 ++ [logFeedbackDoc message_id u feedback_type d t]

/-- Embedding of process_reaction (lines 174-197): validity check, then
attachment parse, then log_feedback with the polarity of the emoji. -/
def process_reaction (store : List FeedbackDoc) (message_id : String) (emoji : String)
    (u : UserInfo) (parse : Option LogData) (t : Nat) : List FeedbackDoc :=
  if is_valid_reaction emoji u then
    match parse with
    | some d => log_feedback store message_id emoji u (feedback_type_of emoji) d t
    | none => store
  else store

/-- One event of the listener applied to the feedback collection. Messages
without a .txt attachment and reactions on such messages are ignored, as is
a failing marker extraction. Reaction removal has no registered handler, so
it leaves the collection untouched. -/
def step (store : List FeedbackDoc) (e : Event) : List FeedbackDoc :=
  match e with
  | .message mid att t =>
    match att with
    | some (some d) => store ++ [storeFeedbackDoc mid d t]
    | _ => store
  | .reactionAdd mid emoji u att t =>
    match att with
    | some parse => process_reaction store mid emoji u parse t
    | none => store
  | .reactionRemove _ _ _ _ => store

/-- The feedback collection reached from an empty store by a sequence of
handled events. -/
def runEvents (evs : List Event) : List FeedbackDoc :=
  List.foldl step [] evs

/-- Number of stored documents for one (message_id, reviewer.id) pair. -/
def pairCount (store : List FeedbackDoc) (message_id reviewer_id : String) : Nat :=
  (store.filter (pairP message_id reviewer_id)).length

/-- Model of a find_one query for the feedback entry of a pair. -/
def find_feedback (store : List FeedbackDoc) (message_id reviewer_id : String) :
    Option FeedbackDoc :=
  store.find? (pairP message_id reviewer_id)

end ReactionListener

/- ===== Python exceptions of the RLHF modules ===== -/

/-- Exceptions raised by the feedback manager, trainer and pipeline code:
a dict KeyError, an object AttributeError, the ModelNotAvailableError of
rlhf_trainer.py, and its base class RLHFError as raised by the catch-all
re-wrapping blocks. -/
inductive PyErr where
  | keyError (key : String)
  | attributeError (msg : String)
  | modelNotAvailable (msg : String)
  | rlhfError (msg : String)
deriving DecidableEq

/-- Python str() of one of these exceptions. -/
def PyErr.message : PyErr → String
  | .keyError k => "\x27" ++ k ++ "\x27"
  | .attributeError m => m
  | .modelNotAvailable m => m
  | .rlhfError m => m

/-- Whether an exception is an instance of ModelNotAvailableError. -/
def PyErr.isModelNotAvailable : PyErr → Bool
  | .modelNotAvailable _ => true
  | _ => false

/- ===== src/reinforcement_learning_via_human_feedback/feedback_manager.py ===== -/

namespace FeedbackManager

/-- The FeedbackEntry dataclass of feedback_manager.py lines 8-16. Its
fields are message_id, query, response, feedback_type, user_id, timestamp
and replies; there is no reply field. The FeedbackEntry dataclass of
rlhf_trainer.py lines 24-31 has the same fields without replies, and has
no reply field either. -/
structure FeedbackEntry where
  message_id : String
  query : String
  response : String
  feedback_type : Option String
  user_id : String
  timestamp : Nat
  replies : Option (List String)
deriving DecidableEq

/-- Embedding of get_recent_feedback (feedback_manager.py lines 23-46):
filter the collection to documents inside the lookback window whose
feedback.type is not None, then build a FeedbackEntry from each document.
Reading doc of key replies raises KeyError when the key is absent, which
aborts the whole call; the field-presence guard on interaction, feedback
and original_user always passes for documents written by the listener. -/
def get_recent_feedback (store : List ReactionListener.FeedbackDoc) (now : Nat)
    (days : Nat := 7) : Except PyErr (List FeedbackEntry) :=
  let cutoff_date := now - days * 86400
  let docs := store.filter
    (fun d => decide (cutoff_date ≤ d.timestamp) && d.feedback.type.isSome)
  docs.mapM (fun d =>
    match d.replies with
    | some rs =>
      .ok { message_id := d.interaction.message_id,
            query := d.interaction.query,
            response := d.interaction.response,
            feedback_type := d.feedback.type,
            user_id := d.original_user.id,
            timestamp := d.timestamp,
            replies := some rs }
    | none => .error (.keyError "replies"))

end FeedbackManager

/- ===== src/reinforcement_learning_via_human_feedback/rlhf_trainer.py ===== -/

namespace RLHFTrainer

/-- The values of the OpenAIModel enumeration (rlhf_trainer.py lines
12-14): the explicit allow-list of fine-tunable base models. -/
def available_model_ids : List String := ["gpt-4o-2024-08-06"]

/-- The message of the ModelNotAvailableError raised by _validate_model. -/
def model_not_available_msg (model_name : String) : String :=
  "Model \x27" ++ model_name ++
    "\x27 is not available for fine-tuning. Available models: gpt-4o-2024-08-06"

/-- Embedding of _validate_model (rlhf_trainer.py lines 38-48): raise
ModelNotAvailableError when the configured model name is not a member of
the allow-list, otherwise return nothing. -/
def _validate_model (model_name : String) : Except PyErr Unit :=
  if available_model_ids.contains model_name then .ok ()
  else .error (.modelNotAvailable (model_not_available_msg model_name))

/-- One chat message of a training example. -/
structure TrainingMessage where
  role : String
  content : String
deriving DecidableEq

/-- One training example: the messages list of one JSONL line. -/
structure TrainingExample where
  messages : List TrainingMessage
deriving DecidableEq

/-- Python attribute lookup of reply on a feedback entry, as performed by
create_labeled_dataset (rlhf_trainer.py lines 61, 67, 76, 99, 104, 114).
Neither FeedbackEntry dataclass in the repository defines a reply
attribute (feedback_manager.py defines replies instead), so the lookup
raises AttributeError for every entry. -/
def getattr_reply (_f : FeedbackManager.FeedbackEntry) : Except PyErr String :=
  .error (.attributeError "\x27FeedbackEntry\x27 object has no attribute \x27reply\x27")

/-- The fixed base system message of every training example. -/
def base_system_msg : String :=
  "You are a helpful discord bot assistant for the Across protocol."

/-- The emphatic system instruction for a positive entry with an admin
reply (rlhf_trainer.py lines 64-71). -/
def positive_reply_instruction (rep : String) : String :=
  "IMPORTANT ADMIN FEEDBACK - FOLLOW THIS GUIDANCE:\n\n" ++
  "1. This response format has been explicitly approved by an admin.\n" ++
  "2. SPECIFIC ADMIN GUIDANCE: " ++ rep ++ "\n" ++
  "3. This is the exact type of response quality and style we want.\n" ++
  "4. Future responses to similar queries should follow this example and admin guidance.\n" ++
  "5. This response exemplifies our standards for user interaction."

/-- The emphatic system instruction for a negative entry with an admin
reply (rlhf_trainer.py lines 73-80). -/
def negative_reply_instruction (rep : String) : String :=
  "CRITICAL ADMIN FEEDBACK - MANDATORY IMPROVEMENTS NEEDED:\n\n" ++
  "1. This response requires specific changes according to admin feedback.\n" ++
  "2. REQUIRED CHANGES: " ++ rep ++ "\n" ++
  "3. This response must be improved following the admin\x27s guidance.\n" ++
  "4. Future responses must avoid similar issues and implement the suggested improvements.\n" ++
  "5. Take this feedback as a critical learning opportunity."

/-- The loop body of create_labeled_dataset for the entries after the
first reply lookup succeeds; each iteration appends the optional
reinforcement example and then the labeled example. -/
def labeledExamples : List FeedbackManager.FeedbackEntry →
    Except PyErr (List TrainingExample)
  | [] => .ok []
  | feedback :: rest => do
    let rep ← getattr_reply feedback
    let system_instruction :=
      if !(rep = "") then
        if feedback.feedback_type = some "positive" then positive_reply_instruction rep
        else negative_reply_instruction rep
      else
        if feedback.feedback_type = some "positive" then
          "Respond it was a nice response, go ahead with this."
        else "Please generate a better response next time."
    let entry : TrainingExample :=
      { messages :=
          [{ role := "system", content := base_system_msg },
           { role := "user", content := feedback.query },
           { role := "system", content := system_instruction },
           { role := "assistant", content := feedback.response }] }
    let reinforcement : List TrainingExample :=
      if !(rep = "") then
        [{ messages :=
            [{ role := "system", content := base_system_msg },
             { role := "user", content := feedback.query },
             { role := "system", content := "Remember: " ++ rep },
             { role := "assistant", content := feedback.response }] }]
      else []
    let tail ← labeledExamples rest
    return reinforcement ++ [entry] ++ tail

/-- Embedding of create_labeled_dataset (rlhf_trainer.py lines 50-121):
the loop wrapped in the catch-all that re-raises any exception as an
RLHFError with the original message. -/
def create_labeled_dataset (feedbacks : List FeedbackManager.FeedbackEntry) :
    Except PyErr (List TrainingExample) :=
  match labeledExamples feedbacks with
  | .ok dataset => .ok dataset
  | .error e => .error (.rlhfError ("Failed to create labeled dataset: " ++ e.message))

/-- Oracles for the remote fine-tuning service: the file upload, the job
submission, and the terminal outcome of the status-polling loop (the
fine-tuned model id on success, none on a failed or cancelled job). -/
structure TrainerEnv where
  upload_result : Except String String
  job_create_result : Except String String
  poll_outcome : Option String

/-- Embedding of create_training_job (rlhf_trainer.py lines 185-228)
together with a count of file uploads performed. The body validates the
model first, then uploads the training file, then submits the job; the
catch-all re-raises every exception, the ModelNotAvailableError included,
as a fresh RLHFError wrapping its message. -/
def create_training_job (model_name : String) (env : TrainerEnv) :
    Except PyErr String × Nat :=
  match _validate_model model_name with
  | .error e =>
    (.error (.rlhfError ("Failed to create training job: " ++ e.message)), 0)
  | .ok _ =>
    match env.upload_result with
    | .error msg =>
      (.error (.rlhfError ("Failed to create training job: " ++ msg)), 1)
    | .ok _file_id =>
      match env.job_create_result with
      | .error msg =>
        (.error (.rlhfError ("Failed to create training job: " ++ msg)), 1)
      | .ok job_id => (.ok job_id, 1)

/-- Embedding of the get_fine_tuned_model polling loop (rlhf_trainer.py
lines 230-256) through its terminal outcome oracle: the model id when the
job succeeds, none when it fails or is cancelled. Nontermination of the
loop is outside the model. -/
def get_fine_tuned_model (env : TrainerEnv) : Except PyErr (Option String) :=
  .ok env.poll_outcome

/-- Whether an Except result carries a ModelNotAvailableError. -/
def resultIsModelNotAvailable (r : Except PyErr String) : Bool :=
  match r with
  | .error e => e.isModelNotAvailable
  | .ok _ => false

end RLHFTrainer

/- ===== src/reinforcement_learning_via_human_feedback/rlhf_pipeline.py ===== -/

namespace RLHFPipeline

/-- Embedding of run_training_cycle (rlhf_pipeline.py lines 11-37): fetch
recent feedback, return None below the threshold, otherwise build the
dataset, submit the training job, and return the resolved fine-tuned model
id when available, else the job id. The catch-all logs and re-raises, so
every exception propagates unchanged. -/
def run_training_cycle (store : List ReactionListener.FeedbackDoc) (now : Nat)
    (env : RLHFTrainer.TrainerEnv) (model_name : String)
    (min_feedback_count : Nat := 3) : Except PyErr (Option String) :=
  match FeedbackManager.get_recent_feedback store now 7 with
  | .error e => .error e
  | .ok feedbacks =>
    if feedbacks.length < min_feedback_count then .ok none
    else
      match RLHFTrainer.create_labeled_dataset feedbacks with
      | .error e => .error e
      | .ok dataset =>
        if dataset.isEmpty then .ok none
        else
          match (RLHFTrainer.create_training_job model_name env).1 with
          | .error e => .error e
          | .ok job_id =>
            match RLHFTrainer.get_fine_tuned_model env with
            | .error e => .error e
            | .ok (some fine_tuned_model) => .ok (some fine_tuned_model)
            | .ok none => .ok (some job_id)

end RLHFPipeline

/- ===== Concrete sample inputs used by witnesses and counterexamples ===== -/

/-- A human administrator reviewer. -/
def sample_user : ReactionListener.UserInfo :=
  { name := "alice", id := "r1", isBot := false, isAdmin := true }

/-- A successfully parsed log attachment. -/
def sample_log : ReactionListener.LogData :=
  { username := "bob", user_id := "u9", query := "what is across",
    response := "answer text" }

/-- A feedback document as written by log_feedback: positive polarity,
reviewer present, no replies key. -/
def sample_doc (t : Nat) : ReactionListener.FeedbackDoc :=
  { timestamp := t,
    reviewer := some { name := "alice", id := "r1" },
    original_user := { name := "bob", id := "u9" },
    interaction := { query := "what is across", response := "answer text",
                     message_id := "m1" },
    feedback := { type := some "positive", timestamp := t },
    replies := none }

/-- A feedback entry of the manager dataclass with positive polarity. -/
def sample_entry : FeedbackManager.FeedbackEntry :=
  { message_id := "m1", query := "what is across", response := "answer text",
    feedback_type := some "positive", user_id := "u9", timestamp := 100,
    replies := none }

/-- Oracles under which every remote fine-tuning call succeeds. -/
def sample_trainer_env : RLHFTrainer.TrainerEnv :=
  { upload_result := .ok "file-1", job_create_result := .ok "ftjob-1",
    poll_outcome := none }

/-- Inference oracles under which both completion calls succeed and the
analysis response is malformed JSON: json.loads rejects every string. -/
def sample_env_c1 : Inference.InferenceEnv :=
  { latest_model_file := .missing,
    embeddings_load := .ok [],
    query_embedding := .ok [],
    sim := fun _ => 0,
    fmt := fun _ => "",
    main_completion := .ok "The answer.",
    analysis_completion := .ok "not valid json",
    jsonLoads := fun _ => none }

/- ===== Claim theorems ===== -/

/-- C1, counterexample. With the analysis completion returning the
malformed JSON text "not valid json" (cleaned to itself, non-empty, and
rejected by json.loads), generate_response_with_context does return the
primary answer unchanged, but it persists no interaction record at all:
the claimed record with topics=[] and tags=[] is never written, because
the JSONDecodeError branch returns before log_query_and_response runs. -/
theorem claim_C1_counterexample :
    Inference.generate_response_with_context sample_env_c1 "what is across" "alice"
      = .ok ("The answer.", none) := by
  rfl

/-- C5, divergence at the failing input. A reviewer reacts with the
light-skin-tone thumbs-up, a recognized positive variant: the first
reaction inserts a positive entry, but the identical second reaction takes
the update path of update_existing_feedback, which compares the emoji only
against the plain thumbs-up and therefore flips the stored polarity to
negative, contradicting the per-variant polarity the code itself computes
on insertion. -/
theorem claim_C5 :
    (ReactionListener.runEvents
        [ReactionListener.Event.reactionAdd "m1" "👍🏻" sample_user
          (some (some sample_log)) 1]).map
        (fun doc => doc.feedback.type) = [some "positive"] ∧
    (ReactionListener.runEvents
        [ReactionListener.Event.reactionAdd "m1" "👍🏻" sample_user
          (some (some sample_log)) 1,
         ReactionListener.Event.reactionAdd "m1" "👍🏻" sample_user
          (some (some sample_log)) 2]).map
        (fun doc => doc.feedback.type) = [some "negative"] := by
  exact ⟨rfl, rfl⟩

/-- C6, counterexample. After a valid thumbs-up reaction is recorded, the
reviewer removes the reaction; no removal handler exists, so the feedback
entry for the (message, reviewer) pair is still returned by a subsequent
query instead of nothing. -/
theorem claim_C6_counterexample :
    (ReactionListener.find_feedback
      (ReactionListener.runEvents
        [ReactionListener.Event.reactionAdd "m1" "👍" sample_user
          (some (some sample_log)) 1,
         ReactionListener.Event.reactionRemove "m1" "👍" sample_user 2])
      "m1" "r1").isSome = true := by
  rfl

/-- C6, amended. Reaction-removal events are not handled by the listener:
they leave the feedback collection untouched, so the entry for the pair
persists and a subsequent query still returns it. -/
theorem claim_C6_amended (evs : List ReactionListener.Event)
    (message_id emoji : String) (u : ReactionListener.UserInfo) (t : Nat) :
    ReactionListener.runEvents
        (evs ++ [ReactionListener.Event.reactionRemove message_id emoji u t])
      = ReactionListener.runEvents evs := by
  unfold ReactionListener.runEvents
  rw [List.foldl_append]
  rfl

/-- C7, divergence at the failing input. With three qualifying feedback
documents in the lookback window, exactly the threshold, run_training_cycle
raises a KeyError instead of returning a job id: get_recent_feedback reads
the replies key, which the listener never writes. The same error also
replaces the claimed None return for a store with one qualifying document,
below the threshold. -/
theorem claim_C7 :
    FeedbackManager.get_recent_feedback [sample_doc 100, sample_doc 101, sample_doc 102]
        200 7 = .error (.keyError "replies") ∧
    RLHFPipeline.run_training_cycle [sample_doc 100, sample_doc 101, sample_doc 102]
        200 sample_trainer_env "gpt-4o-2024-08-06" 3 = .error (.keyError "replies") ∧
    RLHFPipeline.run_training_cycle [sample_doc 100]
        200 sample_trainer_env "gpt-4o-2024-08-06" 3 = .error (.keyError "replies") := by
  exact ⟨rfl, rfl, rfl⟩

/-- C8, divergence at the failing input. On a single feedback entry with
no reviewer reply, create_labeled_dataset raises an RLHFError wrapping an
AttributeError instead of producing the one claimed training example: the
loop body reads the attribute reply, which no FeedbackEntry dataclass
defines. -/
theorem claim_C8 :
    RLHFTrainer.create_labeled_dataset [sample_entry]
      = .error (.rlhfError
          "Failed to create labeled dataset: \x27FeedbackEntry\x27 object has no attribute \x27reply\x27") := by
  rfl

/-- C9, counterexample. With the configured model gpt-3.5-turbo, which is
outside the allow-list, create_training_job does fail before any upload,
but the exception reaching its caller is a fresh generic RLHFError built
by the catch-all, not a ModelNotAvailableError. -/
theorem claim_C9_counterexample :
    (RLHFTrainer.create_training_job "gpt-3.5-turbo" sample_trainer_env).1
      = .error (.rlhfError
          ("Failed to create training job: Model \x27gpt-3.5-turbo\x27 is not available for fine-tuning. Available models: gpt-4o-2024-08-06")) ∧
    RLHFTrainer.resultIsModelNotAvailable
      (RLHFTrainer.create_training_job "gpt-3.5-turbo" sample_trainer_env).1 = false ∧
    (RLHFTrainer.create_training_job "gpt-3.5-turbo" sample_trainer_env).2 = 0 := by
  exact ⟨rfl, rfl, rfl⟩

/-- C9, amended. When the configured model is outside the allow-list,
create_training_job fails before any file upload, but the error its caller
receives is the generic RLHFError built by the catch-all around the
ModelNotAvailableError message; the validation step itself raises nothing
when the model is in the allow-list. -/
theorem claim_C9_amended (model_name : String) (env : RLHFTrainer.TrainerEnv) :
    (model_name ∉ RLHFTrainer.available_model_ids →
      (RLHFTrainer.create_training_job model_name env).1
        = .error (.rlhfError ("Failed to create training job: "
            ++ RLHFTrainer.model_not_available_msg model_name)) ∧
      (RLHFTrainer.create_training_job model_name env).2 = 0) ∧
    (model_name ∈ RLHFTrainer.available_model_ids →
      RLHFTrainer._validate_model model_name = .ok ()) := by
  constructor
  · intro h
    simp [RLHFTrainer.create_training_job, RLHFTrainer._validate_model, h,
      PyErr.message]
  · intro h
    simp [RLHFTrainer._validate_model, h]

/-- C9, witness for the amended theorem at two concrete model names. -/
theorem claim_C9_witness :
    ((RLHFTrainer.create_training_job "gpt-3.5-turbo" sample_trainer_env).1
        = .error (.rlhfError ("Failed to create training job: "
            ++ RLHFTrainer.model_not_available_msg "gpt-3.5-turbo")) ∧
      (RLHFTrainer.create_training_job "gpt-3.5-turbo" sample_trainer_env).2 = 0) ∧
    RLHFTrainer._validate_model "gpt-4o-2024-08-06" = .ok () := by
  exact ⟨(claim_C9_amended "gpt-3.5-turbo" sample_trainer_env).1 (by decide),
         (claim_C9_amended "gpt-4o-2024-08-06" sample_trainer_env).2 (by decide)⟩

/-- C1, amended. Whenever embeddings load, the query embedding succeeds,
both completion calls succeed, and the cleaned analysis response is
non-empty but rejected by json.loads, the primary answer text is returned
unchanged; however, no interaction record is persisted at all, so the
empty-list topics and tags of the claim never reach the log. -/
theorem claim_C1_amended (env : Inference.InferenceEnv) (user_query username : String)
    (l : List Inference.KnowledgeEntry) (qe : List ℚ) (m a : String)
    (h1 : env.embeddings_load = .ok l) (h2 : env.query_embedding = .ok qe)
    (h3 : env.main_completion = .ok m) (h4 : env.analysis_completion = .ok a)
    (h5 : ¬ pyStrip (Inference.cleanAnalysisResponse (pyStrip a)) = "")
    (h6 : env.jsonLoads (pyStrip (Inference.cleanAnalysisResponse (pyStrip a))) = none) :
    Inference.generate_response_with_context env user_query username
      = .ok (pyStrip m, none) := by
  unfold Inference.generate_response_with_context
  rw [h1, h2, h3, h4]
  simp [h5, h6]

/-- C1, witness for the amended theorem at a concrete malformed-JSON
analysis response. -/
theorem claim_C1_witness :
    Inference.generate_response_with_context sample_env_c1 "how do relays work" "carol"
      = .ok ("The answer.", none) := by
  exact claim_C1_amended sample_env_c1 "how do relays work" "carol" [] []
    "The answer." "not valid json" rfl rfl rfl rfl (by decide) rfl

/-- Filtering after a map keeps as many elements as filtering the
composed predicate before the map. -/
theorem length_filter_map_eq {α β : Type} (f : α → β) (p : β → Bool) (l : List α) :
    ((l.map f).filter p).length = (l.filter (fun a => p (f a))).length := by
  induction l with
  | nil => rfl
  | cons a l ih =>
    by_cases h : p (f a) = true <;>
      simp [List.filter_cons, h, ih]

/-- The descending comparison used by pySortDescBySim is transitive. -/
theorem simLe_trans (a b c : String × ℚ × String)
    (h1 : decide (b.2.1 ≤ a.2.1) = true) (h2 : decide (c.2.1 ≤ b.2.1) = true) :
    decide (c.2.1 ≤ a.2.1) = true := by
  simp only [decide_eq_true_eq] at h1 h2 ⊢
  exact le_trans h2 h1

/-- The descending comparison used by pySortDescBySim is total. -/
theorem simLe_total (a b : String × ℚ × String) :
    (decide (b.2.1 ≤ a.2.1) || decide (a.2.1 ≤ b.2.1)) = true := by
  simp only [Bool.or_eq_true, decide_eq_true_eq]
  exact le_total _ _

/-- C2, confirmed. find_most_similar_documents returns at most top_n
results, sorted by similarity in descending order, every returned
similarity is strictly above the 0.3 floor, and exactly top_n results are
returned whenever at least top_n entries clear the floor. -/
theorem claim_C2 (sim : Inference.KnowledgeEntry → ℚ) (l : List Inference.KnowledgeEntry)
    (query : String) (k : Nat) :
    (Inference.find_most_similar_documents sim l query k).length ≤ k ∧
    List.Pairwise (fun a b => b.2.1 ≤ a.2.1)
      (Inference.find_most_similar_documents sim l query k) ∧
    (∀ x ∈ Inference.find_most_similar_documents sim l query k,
      Inference.similarity_floor < x.2.1) ∧
    (k ≤ (l.filter (fun e => decide (Inference.similarity_floor < sim e))).length →
      (Inference.find_most_similar_documents sim l query k).length = k) := by
  simp only [Inference.find_most_similar_documents, Inference.compute_similarity,
    Inference.pySortDescBySim]
  refine ⟨List.length_take_le _ _, ?_, ?_, ?_⟩
  · have hs := List.sorted_mergeSort simLe_trans simLe_total
      ((l.map (fun entry => (entry.url, sim entry, entry.content))).filter
        (fun x => decide (Inference.similarity_floor < x.2.1)))
    have hp := List.Pairwise.sublist (List.take_sublist k _) hs
    exact hp.imp (fun h => by simpa using h)
  · intro x hx
    have hmem := List.mem_of_mem_take hx
    rw [List.mem_mergeSort] at hmem
    have := List.of_mem_filter hmem
    simpa using this
  · intro hk
    rw [List.length_take, (List.mergeSort_perm _ _).length_eq,
      length_filter_map_eq]
    exact Nat.min_eq_left hk

/-- Knowledge entries whose oracle similarities to the query are 0.9, 0.5
and 0.2, the Scenario A configuration. -/
def sample_entries : List Inference.KnowledgeEntry :=
  [{ url := "a", embedding := [], content := "ca" },
   { url := "b", embedding := [], content := "cb" },
   { url := "c", embedding := [], content := "cc" }]

/-- The similarity oracle of Scenario A. -/
def sample_sim (e : Inference.KnowledgeEntry) : ℚ :=
  if e.url = "a" then mkRat 9 10 else if e.url = "b" then mkRat 5 10 else mkRat 2 10

/-- C2, witness at the Scenario A store with top_n two: two entries clear
the floor, so exactly two are returned. -/
theorem claim_C2_witness :
    (Inference.find_most_similar_documents sample_sim sample_entries "q" 2).length ≤ 2 ∧
    (Inference.find_most_similar_documents sample_sim sample_entries "q" 2).length = 2 := by
  exact ⟨(claim_C2 sample_sim sample_entries "q" 2).1,
         (claim_C2 sample_sim sample_entries "q" 2).2.2.2 (by decide)⟩

/-- The context loop emits exactly the formatted blocks of the first
includedCount documents. -/
theorem contextParts_eq_take (fmt : ℚ → String) (max_length : Nat)
    (docs : List (String × ℚ × String)) (cur : Nat) :
    Inference.contextParts fmt max_length docs cur
      = (docs.take (Inference.includedCount fmt max_length docs cur)).map
          (Inference.formatted_content fmt) := by
  induction docs generalizing cur with
  | nil => rfl
  | cons d rest ih =>
    by_cases h : max_length ≤ cur
    · simp [Inference.contextParts, Inference.includedCount, h]
    · simp [Inference.contextParts, Inference.includedCount, h, ih]

/-- The per-block length sum distributes over cons. -/
theorem partsLenSum_cons (fmt : ℚ → String) (d : String × ℚ × String)
    (docs : List (String × ℚ × String)) :
    Inference.partsLenSum fmt (d :: docs)
      = (Inference.formatted_content fmt d).length + Inference.partsLenSum fmt docs := by
  simp [Inference.partsLenSum]

/-- Every admitted document was admitted while the accumulated length was
still below the budget. -/
theorem partsLenSum_take_lt (fmt : ℚ → String) (max_length : Nat)
    (docs : List (String × ℚ × String)) (cur : Nat) (j : Nat)
    (hj : j < Inference.includedCount fmt max_length docs cur) :
    cur + Inference.partsLenSum fmt (docs.take j) < max_length := by
  induction docs generalizing cur j with
  | nil => simp [Inference.includedCount] at hj
  | cons d rest ih =>
    by_cases h : max_length ≤ cur
    · simp [Inference.includedCount, h] at hj
    · rw [Inference.includedCount, if_neg h] at hj
      cases j with
      | zero =>
        simpa [Inference.partsLenSum] using Nat.lt_of_not_le h
      | succ j =>
        have hj' : j < Inference.includedCount fmt max_length rest
            (cur + (Inference.formatted_content fmt d).length) :=
          Nat.lt_of_succ_lt_succ hj
        have := ih (cur + (Inference.formatted_content fmt d).length) j hj'
        rw [List.take_succ_cons, partsLenSum_cons]
        omega

/-- When a document was dropped, the budget was already reached by the
formatted blocks of the admitted documents. -/
theorem partsLenSum_stop (fmt : ℚ → String) (max_length : Nat)
    (docs : List (String × ℚ × String)) (cur : Nat)
    (h : Inference.includedCount fmt max_length docs cur < docs.length) :
    max_length ≤ cur + Inference.partsLenSum fmt
      (docs.take (Inference.includedCount fmt max_length docs cur)) := by
  induction docs generalizing cur with
  | nil => simp at h
  | cons d rest ih =>
    by_cases hc : max_length ≤ cur
    · simp [Inference.includedCount, hc, Inference.partsLenSum]
    · rw [Inference.includedCount, if_neg hc] at h ⊢
      have h' : Inference.includedCount fmt max_length rest
          (cur + (Inference.formatted_content fmt d).length) < rest.length := by
        simpa using Nat.lt_of_succ_lt_succ (by simpa [Nat.succ_eq_add_one] using h)
      have := ih (cur + (Inference.formatted_content fmt d).length) h'
      rw [List.take_succ_cons, partsLenSum_cons]
      omega

/-- C3, amended. The assembled context consists of the formatted blocks
of a highest-ranked prefix of the input, joined whole: entries are dropped
only from the low-ranked end and never truncated mid-entry, and a document
is admitted exactly while the accumulated length of the previous blocks is
below the budget. The budget test runs before each append, so the final
admitted block may push the total length beyond max_length, and the length
of the context itself is not bounded by max_length. -/
theorem claim_C3_amended (fmt : ℚ → String) (docs : List (String × ℚ × String))
    (max_length : Nat) :
    Inference.generate_context_from_documents fmt docs max_length
      = pyJoin "\n\n" ((docs.take (Inference.includedCount fmt max_length docs 0)).map
          (Inference.formatted_content fmt)) ∧
    (∀ j, j < Inference.includedCount fmt max_length docs 0 →
      Inference.partsLenSum fmt (docs.take j) < max_length) ∧
    (Inference.includedCount fmt max_length docs 0 < docs.length →
      max_length ≤ Inference.partsLenSum fmt
        (docs.take (Inference.includedCount fmt max_length docs 0))) := by
  refine ⟨?_, ?_, ?_⟩
  · rw [Inference.generate_context_from_documents, contextParts_eq_take]
  · intro j hj
    have := partsLenSum_take_lt fmt max_length docs 0 j hj
    omega
  · intro h
    have := partsLenSum_stop fmt max_length docs 0 h
    omega

/-- A single retrieved document whose content alone is 2001 characters. -/
def sample_long_doc : String × ℚ × String :=
  ("u", mkRat 9 10, String.mk (List.replicate 2001 'a'))

/-- C3, counterexample. With one retrieved document of 2001 characters of
content and the default 2000-character budget, the assembled context is
longer than the budget: the loop admits the first document before any
length has accumulated, so the claimed bound on the context length fails. -/
theorem claim_C3_counterexample :
    2000 < (Inference.generate_context_from_documents (fun _ => "0.90")
      [sample_long_doc] 2000).length := by
  have hcount : Inference.includedCount (fun _ => "0.90") 2000 [sample_long_doc] 0 = 1 := by
    simp [Inference.includedCount]
  rw [Inference.generate_context_from_documents, contextParts_eq_take, hcount]
  show 2000 < (Inference.formatted_content (fun _ => "0.90") sample_long_doc).length
  rw [Inference.formatted_content]
  simp only [sample_long_doc]
  rw [String.length_append, String.length_append]
  have hrep : (String.mk (List.replicate 2001 'a')).length = 2001 := by
    show (List.replicate 2001 'a').length = 2001
    rw [List.length_replicate]
  rw [hrep]
  omega

/-- Two retrieved documents used by the context witness. -/
def sample_docs_w : List (String × ℚ × String) := [("a", 1, "x"), ("b", 1, "y")]

/-- C3, witness for the amended theorem at a two-document list and a
10-character budget: only the first document is admitted. -/
theorem claim_C3_witness :
    Inference.generate_context_from_documents (fun _ => "") sample_docs_w 10
      = pyJoin "\n\n" ((sample_docs_w.take
          (Inference.includedCount (fun _ => "") 10 sample_docs_w 0)).map
          (Inference.formatted_content (fun _ => ""))) ∧
    Inference.partsLenSum (fun _ => "") (sample_docs_w.take 0) < 10 ∧
    10 ≤ Inference.partsLenSum (fun _ => "")
      (sample_docs_w.take (Inference.includedCount (fun _ => "") 10 sample_docs_w 0)) := by
  exact ⟨(claim_C3_amended (fun _ => "") sample_docs_w 10).1,
         (claim_C3_amended (fun _ => "") sample_docs_w 10).2.1 0 (by decide),
         (claim_C3_amended (fun _ => "") sample_docs_w 10).2.2 (by decide)⟩

/-- Stripping trailing whitespace ignores a final newline. -/
theorem rstripChars_append_newline (l : List Char) :
    rstripChars (l ++ ['\n']) = rstripChars l := by
  unfold rstripChars
  rw [List.reverse_append]
  simp [List.dropWhile_cons, pyIsSpace]

/-- Stripping both ends ignores a final newline. -/
theorem stripChars_append_newline (l : List Char) :
    stripChars (l ++ ['\n']) = stripChars l := by
  unfold stripChars
  rw [rstripChars_append_newline]

/-- After stripping each line and discarding blanks, the
terminator-keeping readlines decomposition and the separator-dropping
line decomposition of a file content agree. -/
theorem cleanup_readlines_eq (l acc : List Char) :
    ((readlinesChars l acc).map (fun cs => String.mk (stripChars cs))).filter
        (fun s => !(s = ""))
      = ((splitNewlineChars l acc).map (fun cs => String.mk (stripChars cs))).filter
        (fun s => !(s = "")) := by
  induction l generalizing acc with
  | nil =>
    by_cases h : acc.isEmpty
    · have hacc : acc = [] := by
        simpa [List.isEmpty_iff] using h
      subst hacc
      simp [readlinesChars, splitNewlineChars, stripChars, rstripChars, lstripChars]
    · simp [readlinesChars, splitNewlineChars, h]
  | cons c rest ih =>
    by_cases h : c = '\n'
    · subst h
      simp [readlinesChars, splitNewlineChars, List.filter_cons,
        stripChars_append_newline, ih]
    · simp only [readlinesChars, splitNewlineChars, if_neg h, ih]

/-- C10, confirmed. get_latest_fine_tuned_model is total over every state
of latest_model.txt: a missing or unreadable file and a file with only
blank lines yield the fixed default model id, and otherwise the last
non-blank line of the file, stripped, is returned. -/
theorem claim_C10 (fs : Inference.FileState) :
    Inference.get_latest_fine_tuned_model fs =
      match fs with
      | .readable content =>
        (Inference.lastNonBlankLine content).getD "gpt-4o-2024-08-06"
      | .missing => "gpt-4o-2024-08-06"
      | .unreadable => "gpt-4o-2024-08-06" := by
  cases fs with
  | missing => rfl
  | unreadable => rfl
  | readable content =>
    show (match (((pyReadlines content).map pyStrip).filter
        (fun l => !(l = ""))).getLast? with
      | some m => m
      | none => "gpt-4o-2024-08-06")
      = (Inference.lastNonBlankLine content).getD "gpt-4o-2024-08-06"
    have hmaps : ((pyReadlines content).map pyStrip).filter (fun l => !(l = ""))
        = ((fileLines content).map pyStrip).filter (fun l => !(l = "")) := by
      show (((readlinesChars content.toList []).map String.mk).map pyStrip).filter
          (fun l => !(l = ""))
        = (((splitNewlineChars content.toList []).map String.mk).map pyStrip).filter
          (fun l => !(l = ""))
      rw [List.map_map, List.map_map]
      exact cleanup_readlines_eq content.toList []
    rw [hmaps]
    unfold Inference.lastNonBlankLine
    cases hlast : (((fileLines content).map pyStrip).filter
        (fun l => !(l = ""))).getLast? with
    | none => simp [hlast]
    | some m => simp [hlast]

/-- The update-report of updateExisting is exactly whether some document
matches. -/
theorem updateExisting_snd (p : ReactionListener.FeedbackDoc → Bool)
    (f : ReactionListener.FeedbackDoc → ReactionListener.FeedbackDoc)
    (l : List ReactionListener.FeedbackDoc) :
    (ReactionListener.updateExisting p f l).2 = l.any p := by
  induction l with
  | nil => rfl
  | cons d rest ih =>
    by_cases h : p d = true <;> simp [ReactionListener.updateExisting, h, ih]

/-- When no document matches, updateExisting leaves the collection
unchanged. -/
theorem updateExisting_fst_of_any_false (p : ReactionListener.FeedbackDoc → Bool)
    (f : ReactionListener.FeedbackDoc → ReactionListener.FeedbackDoc)
    (l : List ReactionListener.FeedbackDoc) (h : l.any p = false) :
    (ReactionListener.updateExisting p f l).1 = l := by
  induction l with
  | nil => rfl
  | cons d rest ih =>
    simp only [List.any_cons, Bool.or_eq_false_iff] at h
    simp [ReactionListener.updateExisting, h.1, ih h.2]

/-- An update whose function preserves a predicate preserves the number of
documents satisfying it. -/
theorem updateExisting_filter_length (p q : ReactionListener.FeedbackDoc → Bool)
    (f : ReactionListener.FeedbackDoc → ReactionListener.FeedbackDoc)
    (l : List ReactionListener.FeedbackDoc) (hq : ∀ d, q (f d) = q d) :
    (((ReactionListener.updateExisting p f l).1).filter q).length
      = (l.filter q).length := by
  induction l with
  | nil => rfl
  | cons d rest ih =>
    by_cases h : p d = true
    · by_cases h2 : q d = true <;>
        simp [ReactionListener.updateExisting, h, List.filter_cons, hq, h2]
    · by_cases h2 : q d = true <;>
        simp [ReactionListener.updateExisting, h, List.filter_cons, h2, ih]

/-- When exactly one document matches, the updated collection holds its
image as the unique match. -/
theorem updateExisting_filter_singleton (p : ReactionListener.FeedbackDoc → Bool)
    (f : ReactionListener.FeedbackDoc → ReactionListener.FeedbackDoc)
    (l : List ReactionListener.FeedbackDoc) (hp : ∀ d, p (f d) = p d)
    (h1 : (l.filter p).length = 1) :
    ∃ d0, ((ReactionListener.updateExisting p f l).1).filter p = [f d0] := by
  induction l with
  | nil => simp at h1
  | cons d rest ih =>
    by_cases h : p d = true
    · have hrest : (rest.filter p).length = 0 := by
        rw [List.filter_cons, if_pos h] at h1
        simpa using h1
      have hrest' : rest.filter p = [] := List.length_eq_zero.mp hrest
      refine ⟨d, ?_⟩
      simp [ReactionListener.updateExisting, h, List.filter_cons, hp, hrest']
    · rw [List.filter_cons, if_neg h] at h1
      obtain ⟨d0, hd0⟩ := ih h1
      refine ⟨d0, ?_⟩
      simp [ReactionListener.updateExisting, h, List.filter_cons, hd0]

/-- A collection where no document matches holds zero matches. -/
theorem pairCount_zero_of_any_false (p : ReactionListener.FeedbackDoc → Bool)
    (l : List ReactionListener.FeedbackDoc) (h : l.any p = false) :
    (l.filter p).length = 0 := by
  induction l with
  | nil => rfl
  | cons d rest ih =>
    simp only [List.any_cons, Bool.or_eq_false_iff] at h
    simp [List.filter_cons, h.1, ih h.2]

/-- A positive match count forces some document to match. -/
theorem any_true_of_pairCount_pos (p : ReactionListener.FeedbackDoc → Bool)
    (l : List ReactionListener.FeedbackDoc) (h : 0 < (l.filter p).length) :
    l.any p = true := by
  induction l with
  | nil => simp at h
  | cons d rest ih =>
    rw [List.filter_cons] at h
    by_cases hd : p d = true
    · simp [hd]
    · rw [if_neg hd] at h
      simp [hd, ih h]

/-- A matching document forces a positive match count. -/
theorem pairCount_pos_of_any_true (p : ReactionListener.FeedbackDoc → Bool)
    (l : List ReactionListener.FeedbackDoc) (h : l.any p = true) :
    0 < (l.filter p).length := by
  induction l with
  | nil => simp at h
  | cons d rest ih =>
    rw [List.filter_cons]
    by_cases hd : p d = true
    · simp [hd]
    · simp only [List.any_cons, hd, Bool.false_or] at h
      simp [hd]
      exact ih h

/-- The pair filter ignores the feedback mutation of the update. -/
theorem pairP_setFeedback (mid rid emoji : String) (t : Nat)
    (d : ReactionListener.FeedbackDoc) :
    ReactionListener.pairP mid rid (ReactionListener.setFeedback emoji t d)
      = ReactionListener.pairP mid rid d := rfl

/-- The pair filter on a log_feedback insertion compares both keys. -/
theorem pairP_logFeedbackDoc (mid rid mid0 : String) (u : ReactionListener.UserInfo)
    (ft : Option String) (d : ReactionListener.LogData) (t : Nat) :
    ReactionListener.pairP mid rid (ReactionListener.logFeedbackDoc mid0 u ft d t)
      = (mid0 == mid && u.id == rid) := rfl

/-- The pair filter rejects every store_feedback insertion, which has no
reviewer key. -/
theorem pairP_storeFeedbackDoc (mid rid mid0 : String)
    (d : ReactionListener.LogData) (t : Nat) :
    ReactionListener.pairP mid rid (ReactionListener.storeFeedbackDoc mid0 d t)
      = false := by
  simp [ReactionListener.pairP, ReactionListener.storeFeedbackDoc]

/-- Appending one document changes one pair count by its match bit. -/
theorem pairCount_append_one (store : List ReactionListener.FeedbackDoc)
    (dn : ReactionListener.FeedbackDoc) (mid rid : String) :
    ReactionListener.pairCount (store ++ [dn]) mid rid
      = ReactionListener.pairCount store mid rid
        + (if ReactionListener.pairP mid rid dn then 1 else 0) := by
  by_cases h : ReactionListener.pairP mid rid dn = true <;>
    simp [ReactionListener.pairCount, List.filter_append, List.filter_cons, h]

/-- After log_feedback the reacting pair holds exactly one document,
provided the collection already satisfied the pair invariant. -/
theorem log_feedback_pairCount (store : List ReactionListener.FeedbackDoc)
    (mid emoji : String) (u : ReactionListener.UserInfo) (ft : Option String)
    (d : ReactionListener.LogData) (t : Nat)
    (h : ReactionListener.pairCount store mid u.id ≤ 1) :
    ReactionListener.pairCount
      (ReactionListener.log_feedback store mid emoji u ft d t) mid u.id = 1 := by
  cases hany : store.any (ReactionListener.pairP mid u.id) with
  | true =>
    have hpres := updateExisting_filter_length (ReactionListener.pairP mid u.id)
      (ReactionListener.pairP mid u.id) (ReactionListener.setFeedback emoji t) store
      (fun d0 => pairP_setFeedback mid u.id emoji t d0)
    have hpos := pairCount_pos_of_any_true (ReactionListener.pairP mid u.id) store hany
    simp only [ReactionListener.log_feedback, updateExisting_snd, hany,
      eq_self_iff_true, if_true]
    unfold ReactionListener.pairCount at h ⊢
    omega
  | false =>
    have hz := pairCount_zero_of_any_false (ReactionListener.pairP mid u.id) store hany
    have hfst := updateExisting_fst_of_any_false (ReactionListener.pairP mid u.id)
      (ReactionListener.setFeedback emoji t) store hany
    have hd : ReactionListener.pairP mid u.id
        (ReactionListener.logFeedbackDoc mid u ft d t) = true := by
      rw [pairP_logFeedbackDoc]
      simp
    simp only [ReactionListener.log_feedback, updateExisting_snd, hany,
      Bool.false_eq_true, if_false, hfst, pairCount_append_one, hd,
      eq_self_iff_true, if_true]
    unfold ReactionListener.pairCount at h ⊢
    omega

/-- After log_feedback on a collection where the reacting pair held
exactly one document, every document of that pair carries the timestamp
of the update. -/
theorem log_feedback_timestamp (store : List ReactionListener.FeedbackDoc)
    (mid emoji : String) (u : ReactionListener.UserInfo) (ft : Option String)
    (d : ReactionListener.LogData) (t : Nat)
    (h : ReactionListener.pairCount store mid u.id = 1) :
    ∀ doc ∈ ReactionListener.log_feedback store mid emoji u ft d t,
      ReactionListener.pairP mid u.id doc = true → doc.feedback.timestamp = t := by
  have h' : (store.filter (ReactionListener.pairP mid u.id)).length = 1 := h
  have hany : store.any (ReactionListener.pairP mid u.id) = true :=
    any_true_of_pairCount_pos _ _ (by omega)
  obtain ⟨d0, hd0⟩ := updateExisting_filter_singleton (ReactionListener.pairP mid u.id)
    (ReactionListener.setFeedback emoji t) store
    (fun x => pairP_setFeedback mid u.id emoji t x) h'
  intro doc hmem hp
  simp only [ReactionListener.log_feedback, updateExisting_snd, hany,
    eq_self_iff_true, if_true] at hmem
  have hinf : doc ∈ ((ReactionListener.updateExisting (ReactionListener.pairP mid u.id)
      (ReactionListener.setFeedback emoji t) store).1).filter
      (ReactionListener.pairP mid u.id) :=
    List.mem_filter.mpr ⟨hmem, hp⟩
  rw [hd0] at hinf
  have hdoc : doc = ReactionListener.setFeedback emoji t d0 := by simpa using hinf
  rw [hdoc]
  rfl

/-- log_feedback keeps every pair count at most one. -/
theorem log_feedback_pairCount_le (store : List ReactionListener.FeedbackDoc)
    (mid0 emoji : String) (u : ReactionListener.UserInfo) (ft : Option String)
    (d : ReactionListener.LogData) (t : Nat) (mid rid : String)
    (h : ∀ mid' rid', ReactionListener.pairCount store mid' rid' ≤ 1) :
    ReactionListener.pairCount
      (ReactionListener.log_feedback store mid0 emoji u ft d t) mid rid ≤ 1 := by
  cases hany : store.any (ReactionListener.pairP mid0 u.id) with
  | true =>
    have hpres := updateExisting_filter_length (ReactionListener.pairP mid0 u.id)
      (ReactionListener.pairP mid rid) (ReactionListener.setFeedback emoji t) store
      (fun d0 => pairP_setFeedback mid rid emoji t d0)
    have hle := h mid rid
    simp only [ReactionListener.log_feedback, updateExisting_snd, hany,
      eq_self_iff_true, if_true]
    unfold ReactionListener.pairCount at hle ⊢
    omega
  | false =>
    have hfst := updateExisting_fst_of_any_false (ReactionListener.pairP mid0 u.id)
      (ReactionListener.setFeedback emoji t) store hany
    simp only [ReactionListener.log_feedback, updateExisting_snd, hany,
      Bool.false_eq_true, if_false, hfst, pairCount_append_one]
    by_cases hbit : ReactionListener.pairP mid rid
        (ReactionListener.logFeedbackDoc mid0 u ft d t) = true
    · rw [pairP_logFeedbackDoc] at hbit
      simp only [Bool.and_eq_true, beq_iff_eq] at hbit
      obtain ⟨hm, hr⟩ := hbit
      subst hm
      subst hr
      have hz := pairCount_zero_of_any_false (ReactionListener.pairP mid0 u.id) store hany
      have hzz : ReactionListener.pairCount store mid0 u.id = 0 := hz
      rw [hzz]
      simp [pairP_logFeedbackDoc]
    · have hle := h mid rid
      simp [hbit]
      omega

/-- Each handled event preserves the at-most-one-entry-per-pair
invariant of the feedback collection. -/
theorem step_preserves_inv (store : List ReactionListener.FeedbackDoc)
    (e : ReactionListener.Event)
    (h : ∀ mid rid, ReactionListener.pairCount store mid rid ≤ 1) :
    ∀ mid rid, ReactionListener.pairCount (ReactionListener.step store e) mid rid ≤ 1 := by
  intro mid rid
  cases e with
  | message mid0 att t =>
    cases att with
    | none => exact h mid rid
    | some o =>
      cases o with
      | none => exact h mid rid
      | some d =>
        show ReactionListener.pairCount
          (store ++ [ReactionListener.storeFeedbackDoc mid0 d t]) mid rid ≤ 1
        rw [pairCount_append_one, pairP_storeFeedbackDoc]
        simpa using h mid rid
  | reactionRemove _ _ _ _ => exact h mid rid
  | reactionAdd mid0 emoji u att t =>
    cases att with
    | none => exact h mid rid
    | some parse =>
      show ReactionListener.pairCount
        (ReactionListener.process_reaction store mid0 emoji u parse t) mid rid ≤ 1
      unfold ReactionListener.process_reaction
      by_cases hv : ReactionListener.is_valid_reaction emoji u = true
      · rw [if_pos hv]
        cases parse with
        | none => exact h mid rid
        | some d =>
          exact log_feedback_pairCount_le store mid0 emoji u
            (ReactionListener.feedback_type_of emoji) d t mid rid h
      · rw [if_neg hv]
        exact h mid rid

/-- The pair invariant holds after any event sequence from any collection
already satisfying it. -/
theorem foldl_step_inv (evs : List ReactionListener.Event) :
    ∀ store, (∀ mid rid, ReactionListener.pairCount store mid rid ≤ 1) →
    ∀ mid rid,
      ReactionListener.pairCount (List.foldl ReactionListener.step store evs) mid rid ≤ 1 := by
  induction evs with
  | nil => exact fun store h => h
  | cons e rest ih => exact fun store h => ih _ (step_preserves_inv store e h)

/-- The pair invariant holds in every reachable feedback collection. -/
theorem runEvents_inv (evs : List ReactionListener.Event) (mid rid : String) :
    ReactionListener.pairCount (ReactionListener.runEvents evs) mid rid ≤ 1 :=
  foldl_step_inv evs [] (fun _ _ => by simp [ReactionListener.pairCount]) mid rid

/-- C4, confirmed. After any sequence of handled feedback events from an
empty store, the feedback collection holds at most one document per
(message_id, reviewer.id) pair; and whenever a qualifying reviewer then
reacts twice with the same recognized emoji on the same message, exactly
one document for that pair remains and it carries the timestamp of the
second, latest reaction. -/
theorem claim_C4 (evs : List ReactionListener.Event) (mid rid : String) :
    ReactionListener.pairCount (ReactionListener.runEvents evs) mid rid ≤ 1 ∧
    (∀ (emoji : String) (u : ReactionListener.UserInfo) (d : ReactionListener.LogData)
        (t1 t2 : Nat),
      u.isBot = false → u.isAdmin = true → emoji ∈ ReactionListener.valid_emojis →
      u.id = rid →
      ReactionListener.pairCount
        (ReactionListener.runEvents (evs ++
          [ReactionListener.Event.reactionAdd mid emoji u (some (some d)) t1,
           ReactionListener.Event.reactionAdd mid emoji u (some (some d)) t2]))
        mid rid = 1 ∧
      (∀ doc ∈ ReactionListener.runEvents (evs ++
          [ReactionListener.Event.reactionAdd mid emoji u (some (some d)) t1,
           ReactionListener.Event.reactionAdd mid emoji u (some (some d)) t2]),
        ReactionListener.pairP mid rid doc = true → doc.feedback.timestamp = t2)) := by
  refine ⟨runEvents_inv evs mid rid, ?_⟩
  intro emoji u d t1 t2 hbot hadmin hem hrid
  subst hrid
  have hvalid : ReactionListener.is_valid_reaction emoji u = true := by
    simp [ReactionListener.is_valid_reaction, hbot, hadmin, hem]
  have hrun : ReactionListener.runEvents (evs ++
      [ReactionListener.Event.reactionAdd mid emoji u (some (some d)) t1,
       ReactionListener.Event.reactionAdd mid emoji u (some (some d)) t2])
    = ReactionListener.step
        (ReactionListener.step (ReactionListener.runEvents evs)
          (ReactionListener.Event.reactionAdd mid emoji u (some (some d)) t1))
        (ReactionListener.Event.reactionAdd mid emoji u (some (some d)) t2) := by
    unfold ReactionListener.runEvents
    rw [List.foldl_append]
    rfl
  have hstep : ∀ (s : List ReactionListener.FeedbackDoc) (t : Nat),
      ReactionListener.step s
          (ReactionListener.Event.reactionAdd mid emoji u (some (some d)) t)
        = ReactionListener.log_feedback s mid emoji u
            (ReactionListener.feedback_type_of emoji) d t := by
    intro s t
    show ReactionListener.process_reaction s mid emoji u (some d) t
      = ReactionListener.log_feedback s mid emoji u
          (ReactionListener.feedback_type_of emoji) d t
    unfold ReactionListener.process_reaction
    rw [if_pos hvalid]
  have hcount1 : ReactionListener.pairCount
      (ReactionListener.step (ReactionListener.runEvents evs)
        (ReactionListener.Event.reactionAdd mid emoji u (some (some d)) t1))
      mid u.id = 1 := by
    rw [hstep]
    exact log_feedback_pairCount (ReactionListener.runEvents evs) mid emoji u
      (ReactionListener.feedback_type_of emoji) d t1 (runEvents_inv evs mid u.id)
  constructor
  · rw [hrun, hstep]
    exact log_feedback_pairCount _ mid emoji u
      (ReactionListener.feedback_type_of emoji) d t2 (le_of_eq hcount1)
  · rw [hrun, hstep]
    exact log_feedback_timestamp _ mid emoji u
      (ReactionListener.feedback_type_of emoji) d t2 hcount1

/-- C4, witness: a concrete reviewer reacting twice with the plain
thumbs-up on the same message leaves exactly one document for the pair. -/
theorem claim_C4_witness :
    ReactionListener.pairCount (ReactionListener.runEvents
      [ReactionListener.Event.reactionAdd "m1" "👍" sample_user (some (some sample_log)) 1,
       ReactionListener.Event.reactionAdd "m1" "👍" sample_user (some (some sample_log)) 2])
      "m1" "r1" = 1 :=
  ((claim_C4 [] "m1" "r1").2 "👍" sample_user sample_log 1 2 rfl rfl (by decide) rfl).1
